import Mathlib

/-!
Shallow embedding of the Relay repository: the configuration loader in
configs/serverConfig.go and the process-lifecycle controller in main.go.
Machine behaviour that lives in libraries (net/http, godotenv) is modelled
from the documented contracts those libraries publish.
-/

/-- The ServerConfig struct of configs/serverConfig.go. -/
structure ServerConfig where
  Port : String
  Host : String
  Env : String
deriving DecidableEq, Repr

/-- The process environment: a map from variable names to optional values
(none means the variable is unset). -/
abbrev ProcEnv := String → Option String

/-- os.Getenv: the value of the variable, or the empty string when unset. -/
def getenv (e : ProcEnv) (k : String) : String := (e k).getD ""

/-- Modelled from the documented contract of godotenv.Load: applying a parsed
key=value file to the process environment sets a variable from the file only
when it is not already present; variables already set are never overwritten. -/
def applyEnvFile (kvs : List (String × String)) (e : ProcEnv) : ProcEnv :=
  fun k =>
    match e k with
    | some v => some v
    | none => kvs.lookup k

/-- Log levels of the slog calls appearing in the sources. -/
inductive LogLevel
  | info
  | warn
  | error
deriving DecidableEq, Repr

/-- One structured log line. -/
structure LogEvent where
  level : LogLevel
  msg : String
deriving DecidableEq, Repr

/-- The observable result of one call to GetServerConfig: the returned
struct, the process environment after godotenv ran, and the log lines. -/
structure LoadResult where
  config : ServerConfig
  env : ProcEnv
  logs : List LogEvent

/-- GetServerConfig of configs/serverConfig.go.  The envFile argument is the
parsed content of the .env file in the working directory, or none when that
file is absent, in which case godotenv.Load returns an error and the code
emits one warning-level log line.  The three fields are read with os.Getenv
after the load step and the struct is returned unconditionally: there is no
validation, no coercion and no error return in the source. -/
def GetServerConfig (envFile : Option (List (String × String))) (e : ProcEnv) :
    LoadResult :=
  match envFile with
  | none =>
    { config := { Port := getenv e "PORT", Host := getenv e "HOST", Env := getenv e "ENV" },
      env := e,
      logs := [{ level := LogLevel.warn,
                 msg := "Error loading .env file, using system environment variables" }] }
  | some kvs =>
    let e2 := applyEnvFile kvs e
    { config := { Port := getenv e2 "PORT", Host := getenv e2 "HOST", Env := getenv e2 "ENV" },
      env := e2,
      logs := [] }

/-- An HTTP response as observed by a client: status code and body. -/
structure Response where
  status : Nat
  body : String
deriving DecidableEq, Repr

/-- The byte string written by the handler registered for GET / in main.go. -/
def rootBody : String := "\x7b \"message\": \"Relay Service Started\" \x7d"

/-- The response of the GET / handler: calling w.Write without a prior
WriteHeader makes net/http send status 200 with the written bytes as body. -/
def rootHandler : Response := { status := 200, body := rootBody }

/-- The chi router built in main.go: a single registered route, GET /. -/
def route (path : String) : Option Response :=
  if path = "/" then some rootHandler else none

/-- Removes whitespace standing outside of string literals.  Two JSON
documents built only from objects and string values are equal as JSON
values exactly when their normal forms under this map coincide. -/
def jsonNormalizeAux : Bool → List Char → List Char
  | _, [] => []
  | inStr, c :: cs =>
    if c == '"' then c :: jsonNormalizeAux (!inStr) cs
    else if !inStr && (c == ' ' || c == '\t' || c == '\n' || c == '\r') then
      jsonNormalizeAux inStr cs
    else c :: jsonNormalizeAux inStr cs

/-- Whitespace normalisation of a JSON document. -/
def jsonNormalize (s : String) : String := String.mk (jsonNormalizeAux false s.data)

/-- The http.Server value built in main.go for the development environment:
bound address and the three fixed timeouts, in seconds.  The handler field
is the routing surface and is opaque to the lifecycle core. -/
structure Server where
  Addr : String
  ReadTimeout : Nat
  WriteTimeout : Nat
  IdleTimeout : Nat
deriving DecidableEq, Repr

/-- The conditional server construction of main.go: a server value is built
only when the configured environment is the literal "development";
otherwise the server variable keeps its zero value nil. -/
def mkServer (cfg : ServerConfig) : Option Server :=
  if cfg.Env = "development" then
    some { Addr := cfg.Port, ReadTimeout := 10, WriteTimeout := 10, IdleTimeout := 60 }
  else
    none

/-- Observable events of a run of main.go, in program order per task.
printStart and printListening are the two fmt prints; acceptLoopError and
logShutdownError are slog.Error calls; logShutdownStarting and
logServerExited are slog.Info calls. -/
inductive Event
  | printStart
  | printListening (addr : String)
  | acceptLoopError (msg : String)
  | signalReceived
  | logShutdownStarting
  | drainBegin (deadlineSecs : Nat)
  | logShutdownError
  | logServerExited
deriving DecidableEq, Repr

/-- The slog level an event is logged at; none for the fmt prints and for
the events that are not log lines. -/
def eventLevel : Event → Option LogLevel
  | Event.acceptLoopError _ => some LogLevel.error
  | Event.logShutdownError => some LogLevel.error
  | Event.logShutdownStarting => some LogLevel.info
  | Event.logServerExited => some LogLevel.info
  | _ => none

/-- What ListenAndServe returned to the accept-loop goroutine:
http.ErrServerClosed after a drain closed the listener, or another
failure such as the port being in use. -/
inductive AcceptResult
  | serverClosed
  | failed (msg : String)
deriving DecidableEq, Repr

/-- Nondeterministic inputs of one run: what the accept loop returned and
whether server.Shutdown returned an error. -/
structure RunParams where
  acceptResult : AcceptResult
  shutdownErr : Bool
deriving DecidableEq, Repr

/-- The 5 second deadline of the shutdown context in main.go. -/
def drainDeadlineSecs : Nat := 5

/-- How a run of the process ends: a normal return of main with the given
exit code, a runtime fault (nil pointer dereference), or blocked forever
on the signal context. -/
inductive Outcome
  | exit (code : Nat)
  | fault
  | blocked
deriving DecidableEq, Repr

/-- The observable behaviour of one run: the controlling path trace, the
accept-loop goroutine trace, and how the process ended. -/
structure RunResult where
  controlTrace : List Event
  acceptTrace : List Event
  outcome : Outcome

/-- The accept-loop goroutine of main.go once a server exists: it prints
the listening line, then ListenAndServe blocks; when that call returns an
error other than http.ErrServerClosed the goroutine logs it at error level
and ends, and on http.ErrServerClosed it ends without logging. -/
def acceptLoopTrace (srv : Server) (res : AcceptResult) : List Event :=
  Event.printListening srv.Addr ::
    match res with
    | AcceptResult.serverClosed => []
    | AcceptResult.failed m => [Event.acceptLoopError m]

/-- The run of main.go after the configuration is loaded.  When no server
was built (environment gate mismatch) the goroutine dereferences the nil
server pointer at server.Addr at once and the whole process faults.
Otherwise the controlling path blocks on the signal context: when the
signal fires it logs the graceful-shutdown line, calls Shutdown under the
fixed 5 second deadline, logs a shutdown error when Shutdown returned one,
logs the exit line and returns, so the process exits with code 0; when no
signal ever fires the controlling path stays blocked. -/
def runController (cfg : ServerConfig) (signalFires : Bool) (p : RunParams) :
    RunResult :=
  match mkServer cfg with
  | none =>
    { controlTrace := [Event.printStart], acceptTrace := [], outcome := Outcome.fault }
  | some srv =>
    if signalFires then
      { controlTrace :=
          [Event.printStart, Event.signalReceived, Event.logShutdownStarting,
           Event.drainBegin drainDeadlineSecs] ++
          (if p.shutdownErr then [Event.logShutdownError] else []) ++
          [Event.logServerExited],
        acceptTrace := acceptLoopTrace srv p.acceptResult,
        outcome := Outcome.exit 0 }
    else
      { controlTrace := [Event.printStart],
        acceptTrace := acceptLoopTrace srv p.acceptResult,
        outcome := Outcome.blocked }

/-- The whole program: load the configuration, then run the controller. -/
def mainRun (envFile : Option (List (String × String))) (e : ProcEnv)
    (signalFires : Bool) (p : RunParams) : RunResult :=
  runController (GetServerConfig envFile e).config signalFires p

/-- A process environment holding the development scenario of the spec. -/
def devEnv : ProcEnv := fun k =>
  if k = "PORT" then some ":4000"
  else if k = "ENV" then some "development"
  else none

/-- A process environment selecting a non-development environment. -/
def prodEnv : ProcEnv := fun k =>
  if k = "ENV" then some "production" else none

/-- A process environment with all three variables set. -/
def fullEnv : ProcEnv := fun k =>
  if k = "PORT" then some ":4000"
  else if k = "HOST" then some "localhost"
  else if k = "ENV" then some "development"
  else none

/-- The configuration of the development scenario. -/
def devConfig : ServerConfig := { Port := ":4000", Host := "", Env := "development" }

/-- The server built from the development scenario configuration. -/
def devServer : Server :=
  { Addr := ":4000", ReadTimeout := 10, WriteTimeout := 10, IdleTimeout := 60 }

/-- An override file content that tries to replace all three variables. -/
def fileKvs : List (String × String) :=
  [("PORT", ":9999"), ("HOST", "example"), ("ENV", "production")]

/-- Pointwise equal environments give pointwise equal environments after
the override file is applied. -/
theorem applyEnvFile_ext (kvs : List (String × String)) (e1 e2 : ProcEnv)
    (h : ∀ k, e1 k = e2 k) (k : String) :
    applyEnvFile kvs e1 k = applyEnvFile kvs e2 k := by
  unfold applyEnvFile
  rw [h]

/-- Applying the override file twice changes nothing beyond the first
application: a variable set by the first pass is never overwritten. -/
theorem applyEnvFile_idem (kvs : List (String × String)) (e : ProcEnv) (k : String) :
    applyEnvFile kvs (applyEnvFile kvs e) k = applyEnvFile kvs e k := by
  unfold applyEnvFile
  cases he : e k with
  | some v => simp
  | none =>
    cases hl : kvs.lookup k <;> simp [hl]

/-- C6: the configuration loader returns unconditionally with no error in
its logs, and the returned Port, Host and Env fields are exactly the raw
(possibly empty) values of the environment variables PORT, HOST and ENV as
they stand when the loader reads them (after the override-file step). -/
theorem c6_loader_unconditional (envFile : Option (List (String × String)))
    (e : ProcEnv) :
    (GetServerConfig envFile e).config.Port = getenv (GetServerConfig envFile e).env "PORT" ∧
    (GetServerConfig envFile e).config.Host = getenv (GetServerConfig envFile e).env "HOST" ∧
    (GetServerConfig envFile e).config.Env = getenv (GetServerConfig envFile e).env "ENV" ∧
    ((GetServerConfig envFile e).logs.all fun l => l.level != LogLevel.error) = true := by
  cases envFile <;> simp [GetServerConfig]

/-- C7: when the override file is absent the loader still succeeds: the
environment is left untouched, the returned fields come from the process
environment alone, and exactly one warning-level log line is emitted. -/
theorem c7_missing_env_file (e : ProcEnv) :
    (GetServerConfig none e).config =
      { Port := getenv e "PORT", Host := getenv e "HOST", Env := getenv e "ENV" } ∧
    (GetServerConfig none e).env = e ∧
    (GetServerConfig none e).logs.length = 1 ∧
    (GetServerConfig none e).logs.head? =
      some { level := LogLevel.warn,
             msg := "Error loading .env file, using system environment variables" } :=
  ⟨rfl, rfl, rfl, rfl⟩

/-- C8: configuration loading is idempotent: two loads over pointwise
identical environment states return field-for-field identical structs, and
a second load run on the environment the first load left behind returns
the same struct as the first load. -/
theorem c8_load_idempotent (envFile : Option (List (String × String)))
    (e1 e2 : ProcEnv) (h : ∀ k, e1 k = e2 k) :
    (GetServerConfig envFile e1).config = (GetServerConfig envFile e2).config ∧
    (GetServerConfig envFile (GetServerConfig envFile e1).env).config =
      (GetServerConfig envFile e1).config := by
  cases envFile with
  | none =>
    constructor
    · simp [GetServerConfig, getenv, h]
    · rfl
  | some kvs =>
    constructor
    · simp [GetServerConfig, getenv, applyEnvFile_ext kvs e1 e2 h]
    · simp [GetServerConfig, getenv, applyEnvFile_idem]

/-- C8 witness: the idempotence theorem applied at the development
environment and an override file that tries to replace every variable. -/
theorem c8_load_idempotent_witness :
    (GetServerConfig (some fileKvs) devEnv).config = (GetServerConfig (some fileKvs) devEnv).config ∧
    (GetServerConfig (some fileKvs) (GetServerConfig (some fileKvs) devEnv).env).config =
      (GetServerConfig (some fileKvs) devEnv).config :=
  c8_load_idempotent (some fileKvs) devEnv devEnv (fun _ => rfl)

/-- C9: the single route of the router is GET /, and its response is
status 200 with a body equal, as a JSON document, to the object mapping
"message" to "Relay Service Started". -/
theorem c9_root_route :
    route "/" = some rootHandler ∧
    rootHandler.status = 200 ∧
    jsonNormalize rootHandler.body = "\x7b\"message\":\"Relay Service Started\"\x7d" := by
  refine ⟨rfl, rfl, ?_⟩
  decide

/-- C10: per variable, independently of the state of the other two: any of
PORT, HOST and ENV that is already set in the process environment before
the loader runs keeps its pre-existing value in the returned configuration
for any content of the override file, and any of the three that is unset
is seeded in the environment from the override file alone: the file seeds
only variables that were unset. -/
theorem c10_preset_env_survives (kvs : List (String × String)) (e : ProcEnv)
    (v : String) :
    (e "PORT" = some v → (GetServerConfig (some kvs) e).config.Port = v) ∧
    (e "HOST" = some v → (GetServerConfig (some kvs) e).config.Host = v) ∧
    (e "ENV" = some v → (GetServerConfig (some kvs) e).config.Env = v) ∧
    (e "PORT" = none → (GetServerConfig (some kvs) e).env "PORT" = kvs.lookup "PORT") ∧
    (e "HOST" = none → (GetServerConfig (some kvs) e).env "HOST" = kvs.lookup "HOST") ∧
    (e "ENV" = none → (GetServerConfig (some kvs) e).env "ENV" = kvs.lookup "ENV") := by
  refine ⟨?_, ?_, ?_, ?_, ?_, ?_⟩ <;>
    intro h <;> simp [GetServerConfig, getenv, applyEnvFile, h]

/-- C10 witness: a mixed environment with PORT and ENV set and HOST unset,
against an override file naming all three: PORT and ENV keep their
pre-existing values and only the unset HOST is seeded from the file. -/
theorem c10_preset_env_survives_witness :
    (GetServerConfig (some fileKvs) devEnv).config.Port = ":4000" ∧
    (GetServerConfig (some fileKvs) devEnv).config.Env = "development" ∧
    (GetServerConfig (some fileKvs) devEnv).env "HOST" = some "example" :=
  ⟨(c10_preset_env_survives fileKvs devEnv ":4000").1 rfl,
   (c10_preset_env_survives fileKvs devEnv "development").2.2.1 rfl,
   (c10_preset_env_survives fileKvs devEnv "").2.2.2.2.1 rfl⟩

/-- C1: the environment gate: for every loaded configuration the server is
left unset exactly when the Env field is not the literal "development";
the run faults on the nil server exactly in that case; and in that case
the program raises no error first: the goroutine emits nothing and the
controlling path emits only the initial print before the fault. -/
theorem c1_env_gate_nil_fault (envFile : Option (List (String × String)))
    (e : ProcEnv) (signalFires : Bool) (p : RunParams) :
    (mkServer (GetServerConfig envFile e).config = none ↔
      (GetServerConfig envFile e).config.Env ≠ "development") ∧
    ((mainRun envFile e signalFires p).outcome = Outcome.fault ↔
      mkServer (GetServerConfig envFile e).config = none) ∧
    (mkServer (GetServerConfig envFile e).config = none →
      (mainRun envFile e signalFires p).acceptTrace = [] ∧
      (mainRun envFile e signalFires p).controlTrace = [Event.printStart]) := by
  refine ⟨?_, ?_, ?_⟩
  · unfold mkServer
    by_cases h : (GetServerConfig envFile e).config.Env = "development" <;> simp [h]
  · unfold mainRun runController
    cases hm : mkServer (GetServerConfig envFile e).config with
    | none => simp
    | some srv => cases signalFires <;> simp
  · intro hnone
    unfold mainRun runController
    rw [hnone]
    exact ⟨rfl, rfl⟩

/-- C1 witness: with ENV set to "production" and no override file, the run
ends in the nil-pointer fault. -/
theorem c1_env_gate_nil_fault_witness :
    (mainRun none prodEnv true { acceptResult := AcceptResult.serverClosed,
                                 shutdownErr := false }).outcome = Outcome.fault :=
  (c1_env_gate_nil_fault none prodEnv true
    { acceptResult := AcceptResult.serverClosed, shutdownErr := false }).2.1.mpr
    (by decide)

/-- C2 counterexample: not every run exits with code 0: with ENV set to
"production" the run ends in the nil-pointer fault, not in a normal exit. -/
theorem c2_counterexample_nonzero_exit :
    (mainRun none prodEnv true { acceptResult := AcceptResult.serverClosed,
                                 shutdownErr := false }).outcome = Outcome.fault ∧
    (mainRun none prodEnv true { acceptResult := AcceptResult.serverClosed,
                                 shutdownErr := false }).outcome ≠ Outcome.exit 0 := by
  constructor
  · decide
  · decide

/-- C2 as amended: in every run whose configured environment is the literal
"development" and in which the shutdown signal fires, the process exits
with code 0 whether or not Shutdown returned an error: the error is only
logged, and the controlling path returns normally right after logging the
exit line. -/
theorem c2_exit_zero_amended (cfg : ServerConfig) (p : RunParams)
    (h : cfg.Env = "development") :
    (runController cfg true p).outcome = Outcome.exit 0 ∧
    (runController cfg true p).controlTrace.getLast? = some Event.logServerExited ∧
    (p.shutdownErr = true →
      Event.logShutdownError ∈ (runController cfg true p).controlTrace) := by
  cases p with
  | mk ar se =>
    cases se <;> simp [runController, mkServer, h]

/-- C2 witness: the amended theorem at the development configuration with a
shutdown error present: the error is in the trace and the exit code is 0. -/
theorem c2_exit_zero_amended_witness :
    (runController devConfig true { acceptResult := AcceptResult.serverClosed,
                                    shutdownErr := true }).outcome = Outcome.exit 0 ∧
    (runController devConfig true { acceptResult := AcceptResult.serverClosed,
                                    shutdownErr := true }).controlTrace.getLast? =
      some Event.logServerExited ∧
    (true = true →
      Event.logShutdownError ∈
        (runController devConfig true { acceptResult := AcceptResult.serverClosed,
                                        shutdownErr := true }).controlTrace) :=
  c2_exit_zero_amended devConfig
    { acceptResult := AcceptResult.serverClosed, shutdownErr := true } rfl

/-- C3: in every run with a constructed server in which the shutdown signal
fires, the controlling path trace shows the signal exactly once; the signal
comes strictly before the graceful-shutdown log line, that line strictly
before drain begins; drain is invoked with the fixed 5 second deadline; and
drain begins strictly before the process-exit log line. -/
theorem c3_shutdown_ordering (cfg : ServerConfig) (p : RunParams)
    (h : cfg.Env = "development") :
    (runController cfg true p).controlTrace.count Event.signalReceived = 1 ∧
    Event.drainBegin drainDeadlineSecs ∈ (runController cfg true p).controlTrace ∧
    Event.logServerExited ∈ (runController cfg true p).controlTrace ∧
    (runController cfg true p).controlTrace.indexOf Event.signalReceived <
      (runController cfg true p).controlTrace.indexOf Event.logShutdownStarting ∧
    (runController cfg true p).controlTrace.indexOf Event.logShutdownStarting <
      (runController cfg true p).controlTrace.indexOf (Event.drainBegin drainDeadlineSecs) ∧
    (runController cfg true p).controlTrace.indexOf (Event.drainBegin drainDeadlineSecs) <
      (runController cfg true p).controlTrace.indexOf Event.logServerExited := by
  cases p with
  | mk ar se =>
    cases se <;> simp [runController, mkServer, h]

/-- C3 witness: the ordering theorem at the development configuration, with
a shutdown error present so that the extra error line sits between drain
begin and the exit line. -/
theorem c3_shutdown_ordering_witness :
    (runController devConfig true { acceptResult := AcceptResult.serverClosed,
                                    shutdownErr := true }).controlTrace.count
      Event.signalReceived = 1 ∧
    Event.drainBegin drainDeadlineSecs ∈
      (runController devConfig true { acceptResult := AcceptResult.serverClosed,
                                      shutdownErr := true }).controlTrace ∧
    Event.logServerExited ∈
      (runController devConfig true { acceptResult := AcceptResult.serverClosed,
                                      shutdownErr := true }).controlTrace ∧
    (runController devConfig true { acceptResult := AcceptResult.serverClosed,
                                    shutdownErr := true }).controlTrace.indexOf
        Event.signalReceived <
      (runController devConfig true { acceptResult := AcceptResult.serverClosed,
                                      shutdownErr := true }).controlTrace.indexOf
        Event.logShutdownStarting ∧
    (runController devConfig true { acceptResult := AcceptResult.serverClosed,
                                    shutdownErr := true }).controlTrace.indexOf
        Event.logShutdownStarting <
      (runController devConfig true { acceptResult := AcceptResult.serverClosed,
                                      shutdownErr := true }).controlTrace.indexOf
        (Event.drainBegin drainDeadlineSecs) ∧
    (runController devConfig true { acceptResult := AcceptResult.serverClosed,
                                    shutdownErr := true }).controlTrace.indexOf
        (Event.drainBegin drainDeadlineSecs) <
      (runController devConfig true { acceptResult := AcceptResult.serverClosed,
                                      shutdownErr := true }).controlTrace.indexOf
        Event.logServerExited :=
  c3_shutdown_ordering devConfig
    { acceptResult := AcceptResult.serverClosed, shutdownErr := true } rfl

/-- C4: for every configuration whose Env field is "development" the server
that is constructed is bound to the Port field of the configuration and
carries the fixed timeouts of 10 seconds read, 10 seconds write and 60
seconds idle. -/
theorem c4_dev_server_fields (cfg : ServerConfig) (h : cfg.Env = "development") :
    mkServer cfg = some { Addr := cfg.Port, ReadTimeout := 10,
                          WriteTimeout := 10, IdleTimeout := 60 } := by
  simp [mkServer, h]

/-- C4 witness: the development scenario configuration yields the server
bound to port :4000 with the fixed timeouts. -/
theorem c4_dev_server_fields_witness :
    mkServer devConfig = some { Addr := ":4000", ReadTimeout := 10,
                                WriteTimeout := 10, IdleTimeout := 60 } :=
  c4_dev_server_fields devConfig rfl

/-- C5: an accept-loop error other than the listener-closed sentinel is
logged at error level as the final act of the goroutine; it leaves the run
outcome exactly what it would have been with the sentinel, and with no
signal the controlling path stays blocked waiting; the sentinel itself
produces no log: the goroutine trace is then only the listening print. -/
theorem c5_accept_loop_failure (cfg : ServerConfig) (srv : Server)
    (signalFires : Bool) (b : Bool) (m : String)
    (h : mkServer cfg = some srv) :
    (acceptLoopTrace srv (AcceptResult.failed m)).getLast? =
      some (Event.acceptLoopError m) ∧
    eventLevel (Event.acceptLoopError m) = some LogLevel.error ∧
    (runController cfg signalFires
        { acceptResult := AcceptResult.failed m, shutdownErr := b }).outcome =
      (runController cfg signalFires
        { acceptResult := AcceptResult.serverClosed, shutdownErr := b }).outcome ∧
    (runController cfg false
        { acceptResult := AcceptResult.failed m, shutdownErr := b }).outcome =
      Outcome.blocked ∧
    acceptLoopTrace srv AcceptResult.serverClosed = [Event.printListening srv.Addr] := by
  refine ⟨by simp [acceptLoopTrace], rfl, ?_, ?_, rfl⟩
  · cases signalFires <;> simp [runController, h]
  · simp [runController, h]

/-- C5 witness: the failure theorem at the development server with a
port-in-use style error message. -/
theorem c5_accept_loop_failure_witness :
    (acceptLoopTrace devServer (AcceptResult.failed "address already in use")).getLast? =
      some (Event.acceptLoopError "address already in use") ∧
    eventLevel (Event.acceptLoopError "address already in use") = some LogLevel.error ∧
    (runController devConfig true
        { acceptResult := AcceptResult.failed "address already in use",
          shutdownErr := false }).outcome =
      (runController devConfig true
        { acceptResult := AcceptResult.serverClosed, shutdownErr := false }).outcome ∧
    (runController devConfig false
        { acceptResult := AcceptResult.failed "address already in use",
          shutdownErr := false }).outcome = Outcome.blocked ∧
    acceptLoopTrace devServer AcceptResult.serverClosed =
      [Event.printListening devServer.Addr] :=
  c5_accept_loop_failure devConfig devServer true false "address already in use" rfl
